import Mathlib

/-!
# Verification development for biosim-server

Shallow embedding of the biosim-server verification service
(`biosim_server/api/main.py`, `biosim_server/biosim_runs/models.py`,
`biosim_server/workflows/simulate/biosim_activities.py`,
`biosim_server/common/biosim1_client/biosim_service_rest.py`,
`biosim_server/biosim_omex`), together with theorems settling the
specification's claims about it.

Python floats are modelled as exact rationals (ℚ); machine strings as
`String`; fallible endpoints return `Except`.
-/

namespace BiosimServer

/-! ## Data model (`biosim_runs/models.py`) -/

/-- `BiosimulatorVersion` (models.py lines 59-66): all fields are strings. -/
structure BiosimulatorVersion where
  id : String
  name : String
  version : String
  image_url : String
  image_digest : String
  created : String
  updated : String
deriving DecidableEq, Repr

/-- `BiosimSimulationRunStatus` (models.py lines 68-77). -/
inductive BiosimSimulationRunStatus where
  | CREATED
  | QUEUED
  | RUNNING
  | SKIPPED
  | PROCESSING
  | SUCCEEDED
  | FAILED
  | RUN_ID_NOT_FOUND
  | UNKNOWN
deriving DecidableEq, Repr

/-- `BiosimSimulationRun` (models.py lines 80-103), the record returned by
`api.biosimulations.org/runs/{run_id}`. The pydantic `field_validator` on
`id` is embedded separately as `validate_id` below. -/
structure BiosimSimulationRun where
  id : String
  name : String
  simulator_version : BiosimulatorVersion
  status : BiosimSimulationRunStatus
  error_message : Option String := none
deriving DecidableEq, Repr

/-- `BiosimSimulationRun.validate_id` (models.py lines 99-103): rejects any
id containing a dash (`v.find("-") >= 0`), returns the id unchanged
otherwise. -/
def validate_id (v : String) : Except String String :=
  if v.data.contains '-' then
    Except.error "id must not contain any dashes, looks like a uuid"
  else
    Except.ok v

/-- Pydantic model construction for `BiosimSimulationRun`: the `id`
field validator runs before the instance is produced, so construction
fails exactly when `validate_id` does. -/
def mk_biosim_simulation_run (id name : String) (sv : BiosimulatorVersion)
    (status : BiosimSimulationRunStatus) (err : Option String) :
    Except String BiosimSimulationRun :=
  match validate_id id with
  | Except.error e => Except.error e
  | Except.ok v => Except.ok ⟨v, name, sv, status, err⟩

/-! ## Comparison settings and the tolerance formula -/

/-- `CompareSettings` as constructed in `api/main.py` lines 163-165:
user description, output inclusion flag, the three tolerance parameters
and the optional observable filter. Tolerances are modelled as exact
rationals. -/
structure CompareSettings where
  user_description : String
  include_outputs : Bool
  rel_tol : ℚ
  abs_tol_min : ℚ
  abs_tol_scale : ℚ
  observables : Option (List String)
deriving DecidableEq, Repr

/-- Modelled from the spec: the comparison engine implementation
(`biosim_verify` comparison code) is not under `src/`; §3
(ComparisonSettings) gives its numeric semantics, matching the parameter
documentation at `api/main.py` lines 125-127:
`atol = max(abs_tol_min, max(|a|,|b|) * abs_tol_scale)`. -/
def calc_atol (s : CompareSettings) (a b : ℚ) : ℚ :=
  max s.abs_tol_min (max |a| |b| * s.abs_tol_scale)

/-- Modelled from the spec: §3 — two values agree iff
`|a - b| <= atol + rel_tol * max(|a|,|b|)`. -/
def values_agree (s : CompareSettings) (a b : ℚ) : Bool :=
  decide (|a - b| ≤ calc_atol s a b + s.rel_tol * max |a| |b|)

/-- The default tolerance settings of the API (`api/main.py` lines
125-127): rel_tol=0.0001, abs_tol_min=0.001, abs_tol_scale=0.00001. -/
def default_compare_settings : CompareSettings :=
  { user_description := "my-omex-compare"
    include_outputs := false
    rel_tol := 1 / 10000
    abs_tol_min := 1 / 1000
    abs_tol_scale := 1 / 100000
    observables := none }

/-! ## Simulator resolution (`api/main.py` lines 145-160) -/

/-- A requested simulator, `"name"` or `"name:version"`
(`api/main.py` lines 120-121, 147-148): the loop body splits on `":"`. -/
structure SimulatorRequest where
  name : String
  version : Option String
deriving DecidableEq, Repr

/-- The original request string, for the 400 error detail
(`api/main.py` line 160). -/
def SimulatorRequest.raw (req : SimulatorRequest) : String :=
  match req.version with
  | some v => req.name ++ ":" ++ v
  | none => req.name

/-- `api/main.py` lines 149-152: when a version is given, scan the catalog
and `break` at the first entry matching both name and version. -/
def resolve_with_version (catalog : List BiosimulatorVersion)
    (name version : String) : Option BiosimulatorVersion :=
  catalog.find? (fun sv => sv.id == name && sv.version == version)

/-- `api/main.py` lines 153-156: when no version is given, scan the whole
catalog without `break`, overwriting the candidate at each name match, so
the last match wins. -/
def resolve_no_version (catalog : List BiosimulatorVersion)
    (name : String) : Option BiosimulatorVersion :=
  catalog.foldl (fun acc sv => if sv.id == name then some sv else acc) none

/-- Per-simulator resolution (`api/main.py` lines 146-156): branch on
whether the request carries a version. -/
def resolve_simulator (catalog : List BiosimulatorVersion)
    (req : SimulatorRequest) : Option BiosimulatorVersion :=
  match req.version with
  | some v => resolve_with_version catalog req.name v
  | none => resolve_no_version catalog req.name

/-- Spec-side formalization of "the last entry in catalog iteration order
whose name matches" (spec §4.2): the last match of a predicate in a list,
written recursively — a later match takes priority over an earlier one. -/
def find_last? {α : Type} (p : α → Bool) : List α → Option α
  | [] => none
  | x :: xs => (find_last? p xs).or (if p x then some x else none)

/-- A two-entry demo catalog with the same simulator name at two versions,
as in spec §8's version-resolution test. -/
def copasi_old : BiosimulatorVersion :=
  ⟨"copasi", "COPASI", "4.41", "img/copasi:4.41", "sha256:aa", "t1", "t2"⟩

/-- Second demo catalog entry, same name at a later version. -/
def copasi_new : BiosimulatorVersion :=
  ⟨"copasi", "COPASI", "4.45", "img/copasi:4.45", "sha256:bb", "t3", "t4"⟩

/-- Demo catalog listing `copasi_old` before `copasi_new`. -/
def demo_catalog : List BiosimulatorVersion := [copasi_old, copasi_new]

/-! ## Run status activity (`workflows/simulate/biosim_activities.py` lines 15-39) -/

/-- `GetSimRunInput` (biosim_activities.py lines 15-17); the flag defaults
to false. -/
structure GetSimRunInput where
  biosim_run_id : String
  abort_on_not_found : Bool := false
deriving DecidableEq, Repr

/-- `aiohttp.ClientResponseError`, reduced to the HTTP status the activity
inspects. -/
structure ClientResponseError where
  status : Nat
deriving DecidableEq, Repr

/-- Modelled from the spec: `BiosimSimulationRun` of
`common/biosim1_client/models.py` is not under src/ (a class distinct from
the `biosim_runs` model above); its fields are those of the constructor
calls at `biosim_activities.py` lines 32-38 and `biosim_service_rest.py`
line 33. -/
structure ClientBiosimSimulationRun where
  id : String
  name : String
  simulator : String
  simulatorVersion : String
  status : BiosimSimulationRunStatus
deriving DecidableEq, Repr

/-- `get_sim_run` (biosim_activities.py lines 20-39): the remote call's
outcome is a parameter. On a `ClientResponseError` with status 404 while
`abort_on_not_found` is set, a `RUN_ID_NOT_FOUND` run is returned as a
normal value — a normal return of a Temporal activity is final, only a
raising activity is retried; otherwise the error is re-raised. -/
def get_sim_run (input : GetSimRunInput)
    (remote : Except ClientResponseError ClientBiosimSimulationRun) :
    Except ClientResponseError ClientBiosimSimulationRun :=
  match remote with
  | Except.ok run => Except.ok run
  | Except.error e =>
      if e.status == 404 && input.abort_on_not_found then
        Except.ok ⟨input.biosim_run_id, "", "", "",
          BiosimSimulationRunStatus.RUN_ID_NOT_FOUND⟩
      else
        Except.error e

/-! ## Workflow output and the status endpoint (`api/main.py`) -/

/-- `fastapi.HTTPException`, reduced to the fields the endpoints set. -/
structure HTTPException where
  status_code : Nat
  detail : String
deriving DecidableEq, Repr

/-- Modelled from the spec: `VerifyWorkflowStatus` (biosim_verify/models.py
is not under src/); §3 gives the VerificationState statuses, and
`api/main.py` lines 185 and 266 use the `PENDING` value. -/
inductive VerifyWorkflowStatus where
  | PENDING
  | RUNNING
  | COMPLETED
  | FAILED
deriving DecidableEq, Repr

/-- `VerifyWorkflowOutput` as constructed at `api/main.py` lines 183-189
and 264-270 (class body in biosim_verify/models.py, not under src/): the
fields are those of the two constructor calls. -/
structure VerifyWorkflowOutput where
  compare_settings : CompareSettings
  workflow_status : VerifyWorkflowStatus
  timestamp : String
  workflow_id : String
  workflow_run_id : String
deriving DecidableEq, Repr

/-- `get_verify_output` (api/main.py lines 201-218): the Temporal query's
outcome is a parameter; a success value is returned as-is, and ANY
exception — unknown id, timeout and infrastructure failure alike — is
converted to an `HTTPException` with status 404 whose detail embeds the
workflow id and the exception message. -/
def get_verify_output (workflow_id : String)
    (query_result : Except String VerifyWorkflowOutput) :
    Except HTTPException VerifyWorkflowOutput :=
  match query_result with
  | Except.ok out => Except.ok out
  | Except.error exc_message =>
      Except.error ⟨404, "error retrieving verification job output with id: "
        ++ workflow_id ++ ": " ++ exc_message⟩

/-! ## Content store (`biosim_omex`) -/

/-- Modelled from the spec: `OmexFile` (biosim_omex/models.py is not under
src/); §3 ArchiveRecord = {content_hash, storage_uri, filename, size,
created_at}, with the content hash named `file_hash_md5` after
`hash_bytes_md5` and `BiosimulatorWorkflowRun.file_hash_md5`. -/
structure OmexFile where
  file_hash_md5 : String
  storage_uri : String
  filename : String
  size : Nat
  created_at : String
deriving DecidableEq, Repr

/-- Modelled from the spec: `hash_bytes_md5` (biosim_omex/omex_storage.py
is not under src/). A deterministic 128-bit content hash over the byte
stream stands in for MD5 (§3: strong enough for dedup, not required to be
cryptographically secure); the claims need only that identical bytes hash
identically. -/
def hash_bytes_md5 (bytes : List Nat) : String :=
  toString (bytes.foldl (fun h b => (h * 31 + b % 256) % (2 ^ 128)) 5381)

/-- The content store's visible state: the catalog of `OmexFile` records in
the document database and the objects written to durable storage. -/
structure ContentStore where
  records : List OmexFile
  objects : List String
deriving DecidableEq, Repr

/-- Modelled from the spec: `get_cached_omex_file_from_upload`
(biosim_omex/omex_storage.py is not under src/); §4.1 Content Store
contract: compute the content hash over the full byte stream first; if a
record with that hash exists, return it unchanged — no storage write, no
catalog insert; otherwise persist the bytes under a hash-derived path and
insert one catalog row. -/
def submit_archive (store : ContentStore) (bytes : List Nat)
    (filename created_at : String) : OmexFile × ContentStore :=
  let h := hash_bytes_md5 bytes
  match store.records.find? (fun r => r.file_hash_md5 == h) with
  | some r => (r, store)
  | none =>
      let uri := "omex/" ++ h ++ ".omex"
      let r : OmexFile := ⟨h, uri, filename, bytes.length, created_at⟩
      (r, ⟨store.records ++ [r], store.objects ++ [uri]⟩)

/-! ## HDF5 output metadata (`biosim_runs/models.py` lines 11-56) -/

/-- `ATTRIBUTE_VALUE_TYPE` (models.py line 8); Python floats as exact
rationals. -/
inductive AttributeValue where
  | int (i : Int)
  | float (q : ℚ)
  | str (s : String)
  | bool (b : Bool)
  | strList (l : List String)
  | intList (l : List Int)
  | floatList (l : List ℚ)
  | boolList (l : List Bool)
deriving DecidableEq, Repr

/-- `HDF5Attribute` (models.py lines 11-13). -/
structure HDF5Attribute where
  key : String
  value : AttributeValue
deriving DecidableEq, Repr

/-- `HDF5Dataset` (models.py lines 16-19). -/
structure HDF5Dataset where
  name : String
  shape : List Int
  attributes : List HDF5Attribute
deriving DecidableEq, Repr

/-- `HDF5Group` (models.py lines 30-33). -/
structure HDF5Group where
  name : String
  attributes : List HDF5Attribute
  datasets : List HDF5Dataset
deriving DecidableEq, Repr

/-- `HDF5File` (models.py lines 36-40). -/
structure HDF5File where
  filename : String
  id : String
  uri : String
  groups : List HDF5Group
deriving DecidableEq, Repr

/-! ## Cache key resolver (`biosim_runs/models.py` lines 106-115, spec §4.4) -/

/-- `BiosimulatorWorkflowRun` (models.py lines 106-115): the durable
RunRecord memo; its second, third and fourth fields carry the cache key. -/
structure BiosimulatorWorkflowRun where
  workflow_id : String
  file_hash_md5 : String
  image_digest : String
  cache_buster : String
  omex_file : OmexFile
  simulator_version : BiosimulatorVersion
  biosim_run : Option BiosimSimulationRun := none
  hdf5_file : Option HDF5File := none
  database_id : Option String := none
deriving DecidableEq, Repr

/-- The cache key: (archive content hash, simulator image digest,
cache-buster token). -/
structure CacheKey where
  file_hash_md5 : String
  image_digest : String
  cache_buster : String
deriving DecidableEq, Repr

/-- Modelled from the spec: §4.4 `key_for(content_hash, image_digest,
cache_buster) -> CacheKey`, a pure function of exactly the three inputs
(the workflow code deriving it is not under src/). -/
def key_for (file_hash_md5 image_digest cache_buster : String) : CacheKey :=
  ⟨file_hash_md5, image_digest, cache_buster⟩

/-- A stored run record is reusable when its remote run reached
SUCCEEDED. -/
def run_succeeded (r : BiosimulatorWorkflowRun) : Bool :=
  match r.biosim_run with
  | some run => run.status == BiosimSimulationRunStatus.SUCCEEDED
  | none => false

/-- Modelled from the spec: §4.4 `lookup(key) -> RunRecord | None` (the
OmexSimWorkflow database query is not under src/): a read of the RunRecord
store for a prior SUCCEEDED record carrying the same key fields. -/
def lookup_cache (store : List BiosimulatorWorkflowRun) (key : CacheKey) :
    Option BiosimulatorWorkflowRun :=
  store.find? (fun r =>
    r.file_hash_md5 == key.file_hash_md5
      && r.image_digest == key.image_digest
      && r.cache_buster == key.cache_buster
      && run_succeeded r)

/-- The per-simulator dispatch decision (spec §4.3, NOT_STARTED edge). -/
inductive DispatchDecision where
  | reuse (r : BiosimulatorWorkflowRun)
  | submit_fresh
deriving DecidableEq, Repr

/-- Modelled from the spec: §4.3/§4.4 — a lifecycle manager short-circuits
to the cached record when the lookup hits, and submits a fresh remote
simulation otherwise. -/
def resolve_or_submit (store : List BiosimulatorWorkflowRun)
    (key : CacheKey) : DispatchDecision :=
  match lookup_cache store key with
  | some r => DispatchDecision.reuse r
  | none => DispatchDecision.submit_fresh

/-- Demo archive record for witnesses. -/
def demo_omex_file : OmexFile :=
  ⟨"d41d8cd98f", "omex/d41d8cd98f.omex", "model.omex", 10, "t0"⟩

/-- Demo SUCCEEDED run record for witnesses, keyed by
("d41d8cd98f", "sha256:bb", "0"). -/
def demo_workflow_run : BiosimulatorWorkflowRun :=
  { workflow_id := "wf1"
    file_hash_md5 := "d41d8cd98f"
    image_digest := "sha256:bb"
    cache_buster := "0"
    omex_file := demo_omex_file
    simulator_version := copasi_new
    biosim_run := some ⟨"abc123", "run", copasi_new,
      BiosimSimulationRunStatus.SUCCEEDED, none⟩
    hdf5_file := none
    database_id := none }

/-! ## Verification endpoints (`api/main.py` lines 110-190 and 221-271) -/

/-- `OmexVerifyWorkflowInput` as constructed at `api/main.py` lines
166-167 (class body in biosim_verify, not under src/). -/
structure OmexVerifyWorkflowInput where
  omex_file : OmexFile
  requested_simulators : List BiosimulatorVersion
  compare_settings : CompareSettings
  cache_buster : String
deriving DecidableEq, Repr

/-- `RunsVerifyWorkflowInput` as constructed at `api/main.py` lines
247-248. -/
structure RunsVerifyWorkflowInput where
  biosimulations_run_ids : List String
  compare_settings : CompareSettings
deriving DecidableEq, Repr

/-- The resolution loop of `verify_omex` (api/main.py lines 145-160):
resolve the requests in order and raise HTTP 400 at the first failure. -/
def resolve_all (catalog : List BiosimulatorVersion) :
    List SimulatorRequest → Except HTTPException (List BiosimulatorVersion)
  | [] => Except.ok []
  | req :: rest =>
      match resolve_simulator catalog req with
      | some sv =>
          match resolve_all catalog rest with
          | Except.ok svs => Except.ok (sv :: svs)
          | Except.error e => Except.error e
      | none =>
          Except.error ⟨400, "Simulator " ++ req.raw ++ " not found."⟩

/-- `verify_omex` (api/main.py lines 117-190): dedup-upload the archive,
resolve all requested simulators (HTTP 400 raised before any dispatch on
failure), then start exactly one workflow whose id is the caller-supplied
prefix followed by the fresh uuid, and return a PENDING output right after
dispatch — the handle is awaited for dispatch only, never for the
simulation's result. Nondeterministic inputs (uuid4, clock, Temporal run
id) are parameters. Returns the HTTP result, the list of dispatched
workflows, and the updated content store. -/
def verify_omex (store : ContentStore) (catalog : List BiosimulatorVersion)
    (uploaded_bytes : List Nat) (uploaded_filename : String)
    ( workflow_id_prefix : String) (simulators : List SimulatorRequest)
    (settings : CompareSettings) (cache_buster : String)
    (fresh_uuid timestamp created_at workflow_run_id : String) :
    Except HTTPException VerifyWorkflowOutput
      × List (String × OmexVerifyWorkflowInput) × ContentStore :=
  let up := submit_archive store uploaded_bytes uploaded_filename created_at
  match resolve_all catalog simulators with
  | Except.error e => (Except.error e, [], up.2)
  | Except.ok svs =>
      let workflow_id := workflow_id_prefix ++ fresh_uuid
      let winput : OmexVerifyWorkflowInput := ⟨up.1, svs, settings, cache_buster⟩
      (Except.ok
        { compare_settings := settings
          workflow_status := VerifyWorkflowStatus.PENDING
          timestamp := timestamp
          workflow_id := workflow_id
          workflow_run_id := workflow_run_id },
       [(workflow_id, winput)], up.2)

/-- `verify_runs` (api/main.py lines 228-271): no upload and no catalog
resolution; always starts exactly one workflow and returns a PENDING
output right after dispatch. -/
def verify_runs ( workflow_id_prefix : String)
    (biosimulations_run_ids : List String) (settings : CompareSettings)
    (fresh_uuid timestamp workflow_run_id : String) :
    Except HTTPException VerifyWorkflowOutput
      × List (String × RunsVerifyWorkflowInput) :=
  let workflow_id := workflow_id_prefix ++ fresh_uuid
  (Except.ok
    { compare_settings := settings
      workflow_status := VerifyWorkflowStatus.PENDING
      timestamp := timestamp
      workflow_id := workflow_id
      workflow_run_id := workflow_run_id },
   [(workflow_id, ⟨biosimulations_run_ids, settings⟩)])

/-! ## Catalog cache (`common/biosim1_client/biosim_service_rest.py` lines 101-119) -/

/-- TTL of the `aiocache` decorator on `get_simulation_versions`
(biosim_service_rest.py line 102): 3600 seconds. -/
def catalog_ttl : Nat := 3600

/-- The `SimpleMemoryCache`, holding at most one catalog entry together
with the time it was stored. -/
structure CatalogCacheState where
  entry : Option (List BiosimulatorVersion × Nat)
deriving DecidableEq, Repr

/-- One call of `get_simulation_versions` through
`@cached(ttl=3600, cache=SimpleMemoryCache)` (biosim_service_rest.py lines
101-119): a cached entry younger than the TTL is returned without touching
upstream; past the TTL the entry has been evicted, so the upstream fetch
(a parameter) runs — a fetched catalog is cached and returned, and a fetch
failure propagates, since aiocache caches values only, never exceptions,
and keeps no stale entry past the TTL. -/
def get_simulation_versions_cached (st : CatalogCacheState) (now : Nat)
    (remote : Except String (List BiosimulatorVersion)) :
    Except String (List BiosimulatorVersion) × CatalogCacheState :=
  match st.entry with
  | some (cat, t) =>
      if now < t + catalog_ttl then
        (Except.ok cat, st)
      else
        match remote with
        | Except.ok cat2 => (Except.ok cat2, ⟨some (cat2, now)⟩)
        | Except.error e => (Except.error e, ⟨none⟩)
  | none =>
      match remote with
      | Except.ok cat2 => (Except.ok cat2, ⟨some (cat2, now)⟩)
      | Except.error e => (Except.error e, st)

end BiosimServer

namespace BiosimServer

/-! ## Helper lemmas -/

theorem foldl_if_eq_find_last {α : Type} (p : α → Bool) :
    ∀ (l : List α) (acc : Option α),
      l.foldl (fun acc sv => if p sv then some sv else acc) acc
        = (find_last? p l).or acc := by
  intro l
  induction l with
  | nil => intro acc; simp [find_last?]
  | cons x xs ih =>
    intro acc
    simp only [List.foldl_cons, find_last?, ih]
    cases hfind : find_last? p xs with
    | some r => simp [Option.or]
    | none =>
      cases hp : p x <;> simp [Option.or]

theorem find_last_none_iff {α : Type} (p : α → Bool) (l : List α) :
    find_last? p l = none ↔ ∀ x ∈ l, ¬ p x = true := by
  induction l with
  | nil => simp [find_last?]
  | cons x xs ih =>
    simp only [find_last?, List.mem_cons]
    constructor
    · intro h
      cases hfind : find_last? p xs with
      | some r => rw [hfind] at h; simp [Option.or] at h
      | none =>
        rw [hfind] at h
        simp only [Option.none_or] at h
        intro y hy
        rcases hy with rfl | hy
        · intro hp; rw [hp] at h; simp at h
        · exact (ih.mp hfind) y hy
    · intro h
      have hxs : find_last? p xs = none := ih.mpr (fun y hy => h y (Or.inr hy))
      rw [hxs]
      have hx : p x = false := by
        cases hp : p x
        · rfl
        · exact absurd hp (h x (Or.inl rfl))
      simp [hx, Option.or]

theorem find?_append_left_none {α : Type} (p : α → Bool) (l1 l2 : List α)
    (h : l1.find? p = none) : (l1 ++ l2).find? p = l2.find? p := by
  induction l1 with
  | nil => simp
  | cons x xs ih =>
    cases hp : p x with
    | true =>
      rw [List.find?_cons_of_pos _ hp] at h
      exact absurd h (by simp)
    | false =>
      have hp' : ¬ p x = true := by simp [hp]
      rw [List.find?_cons_of_neg _ hp'] at h
      rw [List.cons_append, List.find?_cons_of_neg _ hp']
      exact ih h

/-! ## Theorems: C1 -/

/-- C1: for every pair of values and every settings, the comparison engine
computes `atol = max(abs_tol_min, max(|a|,|b|) * abs_tol_scale)` and reports
agreement iff `|a-b| <= atol + rel_tol * max(|a|,|b|)`; with the default
settings (rel_tol=0.0001, abs_tol_min=0.001, abs_tol_scale=0.00001) the
pair (100.0, 100.002) agrees and the pair (100.0, 100.5) disagrees. -/
theorem comparison_tolerance_formula :
    (∀ (s : CompareSettings) (a b : ℚ),
        values_agree s a b = true ↔
          |a - b| ≤ max s.abs_tol_min (max |a| |b| * s.abs_tol_scale)
            + s.rel_tol * max |a| |b|)
    ∧ values_agree default_compare_settings 100 (50001 / 500) = true
    ∧ values_agree default_compare_settings 100 (201 / 2) = false := by
  have hiff : ∀ (s : CompareSettings) (a b : ℚ),
      values_agree s a b = true ↔
        |a - b| ≤ max s.abs_tol_min (max |a| |b| * s.abs_tol_scale)
          + s.rel_tol * max |a| |b| := by
    intro s a b
    simp [values_agree, calc_atol]
  refine ⟨hiff, ?_, ?_⟩
  · rw [hiff]
    simp only [default_compare_settings]
    have h2 : |(100 : ℚ)| = 100 := by rw [abs_of_nonneg] ; norm_num
    have h3 : |(50001 : ℚ) / 500| = 50001 / 500 := by
      rw [abs_of_nonneg] ; norm_num
    have h1 : |(100 : ℚ) - 50001 / 500| = 1 / 500 := by
      rw [abs_sub_comm, abs_of_nonneg] <;> norm_num
    rw [h1, h2, h3, max_eq_right (by norm_num : (100 : ℚ) ≤ 50001 / 500),
      max_eq_right (by norm_num : (1 : ℚ) / 1000 ≤ 50001 / 500 * (1 / 100000))]
    norm_num [default_compare_settings]
  · have : ¬ values_agree default_compare_settings 100 (201 / 2) = true := by
      rw [hiff]
      simp only [default_compare_settings]
      have h2 : |(100 : ℚ)| = 100 := by rw [abs_of_nonneg] ; norm_num
      have h3 : |(201 : ℚ) / 2| = 201 / 2 := by rw [abs_of_nonneg] ; norm_num
      have h1 : |(100 : ℚ) - 201 / 2| = 1 / 2 := by
        rw [abs_sub_comm, abs_of_nonneg] <;> norm_num
      rw [h1, h2, h3, max_eq_right (by norm_num : (100 : ℚ) ≤ 201 / 2),
        max_eq_right (by norm_num : (1 : ℚ) / 1000 ≤ 201 / 2 * (1 / 100000))]
      norm_num [default_compare_settings]
    simpa using this

/-! ## Theorems: C3 -/

/-- C3: resolving a name without a version returns the last catalog entry
whose name matches (the loop keeps overwriting without `break`); resolving
with a version requires an exact match on both name and version, and yields
not-found (`none`, which the endpoint turns into HTTP 400) when no entry
matches both. -/
theorem simulator_resolution_policy :
    (∀ (catalog : List BiosimulatorVersion) (name : String),
        resolve_simulator catalog ⟨name, none⟩
          = find_last? (fun sv => sv.id == name) catalog)
    ∧ (∀ (catalog : List BiosimulatorVersion) (name version : String)
          (r : BiosimulatorVersion),
        resolve_simulator catalog ⟨name, some version⟩ = some r →
          r.id = name ∧ r.version = version)
    ∧ (∀ (catalog : List BiosimulatorVersion) (name version : String),
        (∀ sv ∈ catalog, ¬(sv.id = name ∧ sv.version = version)) →
          resolve_simulator catalog ⟨name, some version⟩ = none) := by
  refine ⟨?_, ?_, ?_⟩
  · intro catalog name
    show resolve_no_version catalog name = _
    unfold resolve_no_version
    rw [foldl_if_eq_find_last, Option.or_none]
  · intro catalog name version r h
    simp only [resolve_simulator, resolve_with_version] at h
    have hp := List.find?_some h
    simpa using hp
  · intro catalog name version h
    simp only [resolve_simulator, resolve_with_version]
    rw [List.find?_eq_none]
    intro sv hsv
    simpa using h sv hsv

/-- C3 witness: in the demo catalog with two "copasi" entries, resolving
"copasi:9.9" (unmatched version) is not found, and resolving bare "copasi"
gives the last matching entry, `copasi_new`, not the first. -/
theorem simulator_resolution_policy_witness :
    resolve_simulator demo_catalog ⟨"copasi", some "9.9"⟩ = none
    ∧ resolve_simulator demo_catalog ⟨"copasi", none⟩ = some copasi_new := by
  constructor
  · exact simulator_resolution_policy.2.2 demo_catalog "copasi" "9.9" (by decide)
  · rw [simulator_resolution_policy.1]; decide

/-! ## Theorems: C9 -/

/-- C9: constructing a `BiosimSimulationRun` with an id containing a dash
always fails validation, and for every id without a dash the validator
returns it unchanged — so UUID-formatted run ids are rejected at the model
boundary (concretely, a dashed UUID string is rejected). -/
theorem run_id_dash_rejection :
    (∀ (id name : String) (sv : BiosimulatorVersion)
        (status : BiosimSimulationRunStatus) (err : Option String),
        id.data.contains '-' = true →
          mk_biosim_simulation_run id name sv status err
            = Except.error "id must not contain any dashes, looks like a uuid")
    ∧ (∀ (id name : String) (sv : BiosimulatorVersion)
        (status : BiosimSimulationRunStatus) (err : Option String),
        id.data.contains '-' = false →
          mk_biosim_simulation_run id name sv status err
            = Except.ok ⟨id, name, sv, status, err⟩)
    ∧ validate_id "67817a2e-1f52-47f4-8628-af9712345678"
        = Except.error "id must not contain any dashes, looks like a uuid" := by
  refine ⟨?_, ?_, ?_⟩
  · intro id name sv status err h
    have h' : '-' ∈ id.data := by simpa using h
    simp [mk_biosim_simulation_run, validate_id, h']
  · intro id name sv status err h
    have h' : '-' ∉ id.data := by simpa using h
    simp [mk_biosim_simulation_run, validate_id, h']
  · rfl

/-- C9 witness: a dashless id is accepted unchanged; a dashed id is
rejected. -/
theorem run_id_dash_rejection_witness :
    mk_biosim_simulation_run "67817a2e1f52f47f628af971" "run1" copasi_new
        BiosimSimulationRunStatus.SUCCEEDED none
      = Except.ok ⟨"67817a2e1f52f47f628af971", "run1", copasi_new,
          BiosimSimulationRunStatus.SUCCEEDED, none⟩
    ∧ mk_biosim_simulation_run "abc-def" "run2" copasi_new
        BiosimSimulationRunStatus.SUCCEEDED none
      = Except.error "id must not contain any dashes, looks like a uuid" := by
  constructor
  · exact run_id_dash_rejection.2.1 _ _ _ _ _ (by decide)
  · exact run_id_dash_rejection.1 _ _ _ _ _ (by decide)

/-! ## Theorems: C4 -/

/-- C4: when the remote status endpoint reports 404, `get_sim_run` with
`abort_on_not_found = true` returns — as a normal value, so the activity is
not retried — a run whose status is RUN_ID_NOT_FOUND and whose id equals
the requested run id; with `abort_on_not_found = false` the 404 error
propagates as an exception. -/
theorem not_found_short_circuit :
    (∀ (input : GetSimRunInput) (e : ClientResponseError),
        e.status = 404 → input.abort_on_not_found = true →
          get_sim_run input (Except.error e)
            = Except.ok ⟨input.biosim_run_id, "", "", "",
                BiosimSimulationRunStatus.RUN_ID_NOT_FOUND⟩)
    ∧ (∀ (input : GetSimRunInput) (e : ClientResponseError),
        e.status = 404 → input.abort_on_not_found = false →
          get_sim_run input (Except.error e) = Except.error e) := by
  constructor
  · intro input e h404 habort
    simp [get_sim_run, h404, habort]
  · intro input e h404 habort
    simp [get_sim_run, h404, habort]

/-- C4 witness: a 404 for run id "abc123" with abort set yields a normal
RUN_ID_NOT_FOUND value; without abort the error propagates. -/
theorem not_found_short_circuit_witness :
    get_sim_run ⟨"abc123", true⟩ (Except.error ⟨404⟩)
      = Except.ok ⟨"abc123", "", "", "",
          BiosimSimulationRunStatus.RUN_ID_NOT_FOUND⟩
    ∧ get_sim_run ⟨"abc123", false⟩ (Except.error ⟨404⟩)
      = Except.error ⟨404⟩ :=
  ⟨not_found_short_circuit.1 ⟨"abc123", true⟩ ⟨404⟩ rfl rfl,
   not_found_short_circuit.2 ⟨"abc123", false⟩ ⟨404⟩ rfl rfl⟩

/-! ## Theorems: C10 -/

/-- C10: every failing status query — unknown workflow id, timeout and
infrastructure failure alike — is mapped by `get_verify_output` to an
HTTPException with status code 404 (so an infrastructure failure is
externally indistinguishable from an unknown id), while a successful query
is passed through. -/
theorem status_query_errors_map_to_404 :
    (∀ (workflow_id exc_message : String),
        get_verify_output workflow_id (Except.error exc_message)
          = Except.error ⟨404,
              "error retrieving verification job output with id: "
                ++ workflow_id ++ ": " ++ exc_message⟩)
    ∧ (∀ (workflow_id : String) (out : VerifyWorkflowOutput),
        get_verify_output workflow_id (Except.ok out) = Except.ok out) :=
  ⟨fun _ _ => rfl, fun _ _ => rfl⟩

/-! ## Theorems: C5 -/

/-- C5: archive submission is idempotent — submitting the same bytes twice
(even under different filenames or timestamps) returns the very record of
the first submission, leaves the store (catalog rows and storage objects)
unchanged, and the returned record's content hash is the hash of the
submitted bytes. -/
theorem archive_submission_idempotent :
    ∀ (store : ContentStore) (bytes : List Nat) (fn1 ts1 fn2 ts2 : String),
      (submit_archive (submit_archive store bytes fn1 ts1).2 bytes fn2 ts2).1
          = (submit_archive store bytes fn1 ts1).1
      ∧ (submit_archive (submit_archive store bytes fn1 ts1).2 bytes fn2 ts2).2
          = (submit_archive store bytes fn1 ts1).2
      ∧ (submit_archive store bytes fn1 ts1).1.file_hash_md5
          = hash_bytes_md5 bytes := by
  intro store bytes fn1 ts1 fn2 ts2
  cases hfind : store.records.find?
      (fun r => r.file_hash_md5 == hash_bytes_md5 bytes) with
  | some r =>
    have hsub1 : submit_archive store bytes fn1 ts1 = (r, store) := by
      simp only [submit_archive]
      rw [hfind]
    have hsub2 : submit_archive store bytes fn2 ts2 = (r, store) := by
      simp only [submit_archive]
      rw [hfind]
    rw [hsub1, hsub2]
    refine ⟨rfl, rfl, ?_⟩
    have hp := List.find?_some hfind
    simpa using hp
  | none =>
    have hsub1 : submit_archive store bytes fn1 ts1
        = (⟨hash_bytes_md5 bytes,
              "omex/" ++ hash_bytes_md5 bytes ++ ".omex",
              fn1, bytes.length, ts1⟩,
           ⟨store.records
              ++ [⟨hash_bytes_md5 bytes,
                    "omex/" ++ hash_bytes_md5 bytes ++ ".omex",
                    fn1, bytes.length, ts1⟩],
            store.objects
              ++ ["omex/" ++ hash_bytes_md5 bytes ++ ".omex"]⟩) := by
      simp only [submit_archive]
      rw [hfind]
    rw [hsub1]
    refine ⟨?_, ?_, rfl⟩
    · simp only [submit_archive]
      rw [find?_append_left_none _ _ _ hfind]
      simp [List.find?]
    · simp only [submit_archive]
      rw [find?_append_left_none _ _ _ hfind]
      simp [List.find?]

/-! ## Theorems: C2 -/

/-- C2: the cache key is a function of exactly (content hash, image digest,
cache_buster) — identical triples give identical keys and differing triples
give differing keys; after a first request for an uncached key completes
with a SUCCEEDED record carrying that key, a second identical request
reuses that record instead of submitting anew; and a request whose
cache_buster differs from every stored record's always submits a fresh
remote simulation. -/
theorem cache_key_reuse :
    (∀ (h1 d1 b1 h2 d2 b2 : String),
        key_for h1 d1 b1 = key_for h2 d2 b2 ↔ h1 = h2 ∧ d1 = d2 ∧ b1 = b2)
    ∧ (∀ (store : List BiosimulatorWorkflowRun) (key : CacheKey)
          (r : BiosimulatorWorkflowRun),
        lookup_cache store key = none →
        r.file_hash_md5 = key.file_hash_md5 →
        r.image_digest = key.image_digest →
        r.cache_buster = key.cache_buster →
        run_succeeded r = true →
          resolve_or_submit (store ++ [r]) key = DispatchDecision.reuse r)
    ∧ (∀ (store : List BiosimulatorWorkflowRun) (key : CacheKey),
        (∀ r ∈ store, r.cache_buster ≠ key.cache_buster) →
          resolve_or_submit store key = DispatchDecision.submit_fresh) := by
  refine ⟨?_, ?_, ?_⟩
  · intro h1 d1 b1 h2 d2 b2
    simp [key_for]
  · intro store key r hnone hf hi hc hs
    have hnone' : store.find? (fun r' =>
        r'.file_hash_md5 == key.file_hash_md5
          && r'.image_digest == key.image_digest
          && r'.cache_buster == key.cache_buster
          && run_succeeded r') = none := hnone
    have hlook : lookup_cache (store ++ [r]) key = some r := by
      unfold lookup_cache
      rw [find?_append_left_none _ _ _ hnone']
      simp [List.find?, hf, hi, hc, hs]
    unfold resolve_or_submit
    rw [hlook]
  · intro store key hb
    have hlook : lookup_cache store key = none := by
      unfold lookup_cache
      rw [List.find?_eq_none]
      intro x hx hpx
      simp only [Bool.and_eq_true, beq_iff_eq] at hpx
      exact hb x hx hpx.1.2
    unfold resolve_or_submit
    rw [hlook]

/-- C2 witness: with an empty store, the key ("d41d8cd98f", "sha256:bb",
"0") misses; after the first request's SUCCEEDED record is stored, the
identical key reuses it, while changing only the cache_buster to "1"
submits fresh. -/
theorem cache_key_reuse_witness :
    resolve_or_submit ([] ++ [demo_workflow_run])
        (key_for "d41d8cd98f" "sha256:bb" "0")
      = DispatchDecision.reuse demo_workflow_run
    ∧ resolve_or_submit [demo_workflow_run]
        (key_for "d41d8cd98f" "sha256:bb" "1")
      = DispatchDecision.submit_fresh :=
  ⟨cache_key_reuse.2.1 [] (key_for "d41d8cd98f" "sha256:bb" "0")
      demo_workflow_run rfl rfl rfl rfl rfl,
   cache_key_reuse.2.2 [demo_workflow_run]
      (key_for "d41d8cd98f" "sha256:bb" "1") (by decide)⟩

/-! ## Theorems: C6 -/

theorem resolve_all_error_of_unresolvable
    (catalog : List BiosimulatorVersion) :
    ∀ (sims : List SimulatorRequest) (req : SimulatorRequest),
      req ∈ sims → resolve_simulator catalog req = none →
        ∃ msg, resolve_all catalog sims = Except.error ⟨400, msg⟩ := by
  intro sims
  induction sims with
  | nil =>
    intro req h
    exact absurd h (List.not_mem_nil req)
  | cons x rest ih =>
    intro req hmem hfail
    rcases List.mem_cons.mp hmem with rfl | hmem'
    · refine ⟨"Simulator " ++ req.raw ++ " not found.", ?_⟩
      unfold resolve_all
      rw [hfail]
    · cases hx : resolve_simulator catalog x with
      | none =>
        refine ⟨"Simulator " ++ x.raw ++ " not found.", ?_⟩
        unfold resolve_all
        rw [hx]
      | some sv =>
        obtain ⟨msg, hmsg⟩ := ih req hmem' hfail
        refine ⟨msg, ?_⟩
        unfold resolve_all
        rw [hx, hmsg]

/-- C6: a verification request containing at least one simulator that does
not resolve against the catalog is rejected with HTTP 400, and no workflow
is dispatched for any simulator of that request. -/
theorem unresolvable_simulator_fails_before_dispatch :
    ∀ (store : ContentStore) (catalog : List BiosimulatorVersion)
      (bytes : List Nat) (fn : String) ( workflow_id_prefix : String)
      (sims : List SimulatorRequest) (settings : CompareSettings)
      (cb uuid ts ca wrid : String) (req : SimulatorRequest),
      req ∈ sims → resolve_simulator catalog req = none →
        (∃ e, (verify_omex store catalog bytes fn workflow_id_prefix sims
            settings cb uuid ts ca wrid).1 = Except.error e
          ∧ e.status_code = 400)
        ∧ (verify_omex store catalog bytes fn workflow_id_prefix sims
            settings cb uuid ts ca wrid).2.1 = [] := by
  intro store catalog bytes fn px sims settings cb uuid ts ca wrid req
    hmem hfail
  obtain ⟨msg, hmsg⟩ := resolve_all_error_of_unresolvable catalog sims req
    hmem hfail
  simp only [verify_omex]
  rw [hmsg]
  exact ⟨⟨⟨400, msg⟩, rfl, rfl⟩, rfl⟩

/-- C6 witness: a request for the unknown simulator "unknown_sim" against
the demo catalog yields HTTP 400 and dispatches nothing. -/
theorem unresolvable_simulator_fails_before_dispatch_witness :
    (∃ e, (verify_omex ⟨[], []⟩ demo_catalog [0, 1] "m.omex"
        "omex-verification-" [⟨"unknown_sim", none⟩] default_compare_settings
        "0" "u1" "t" "c" "r1").1 = Except.error e ∧ e.status_code = 400)
    ∧ (verify_omex ⟨[], []⟩ demo_catalog [0, 1] "m.omex"
        "omex-verification-" [⟨"unknown_sim", none⟩] default_compare_settings
        "0" "u1" "t" "c" "r1").2.1 = [] :=
  unresolvable_simulator_fails_before_dispatch ⟨[], []⟩ demo_catalog [0, 1]
    "m.omex" "omex-verification-" [⟨"unknown_sim", none⟩]
    default_compare_settings "0" "u1" "t" "c" "r1" ⟨"unknown_sim", none⟩
    (by simp) rfl

/-! ## Theorems: C8 -/

/-- C8: for every request that passes validation, `verify_omex` returns a
VerifyWorkflowOutput whose workflow_id is the caller-supplied prefix
followed by the fresh uuid and whose status is PENDING, right after
dispatching exactly one workflow (the output carries no simulation result);
`verify_runs` unconditionally does the same. -/
theorem verify_endpoints_prompt_pending :
    (∀ (store : ContentStore) (catalog : List BiosimulatorVersion)
        (bytes : List Nat) (fn : String) ( workflow_id_prefix : String)
        (sims : List SimulatorRequest) (settings : CompareSettings)
        (cb uuid ts ca wrid : String) (svs : List BiosimulatorVersion),
        resolve_all catalog sims = Except.ok svs →
          (verify_omex store catalog bytes fn workflow_id_prefix sims
              settings cb uuid ts ca wrid).1
            = Except.ok ⟨settings, VerifyWorkflowStatus.PENDING, ts,
                workflow_id_prefix ++ uuid, wrid⟩
          ∧ (verify_omex store catalog bytes fn workflow_id_prefix sims
              settings cb uuid ts ca wrid).2.1
            = [( workflow_id_prefix ++ uuid,
                ⟨(submit_archive store bytes fn ca).1, svs, settings, cb⟩)])
    ∧ (∀ ( workflow_id_prefix : String) (run_ids : List String)
        (settings : CompareSettings) (uuid ts wrid : String),
        (verify_runs workflow_id_prefix run_ids settings uuid ts wrid).1
          = Except.ok ⟨settings, VerifyWorkflowStatus.PENDING, ts,
              workflow_id_prefix ++ uuid, wrid⟩) := by
  constructor
  · intro store catalog bytes fn px sims settings cb uuid ts ca wrid svs h
    simp only [verify_omex]
    rw [h]
    exact ⟨rfl, rfl⟩
  · intro px run_ids settings uuid ts wrid
    rfl

/-- C8 witness: a valid request for "copasi" against the demo catalog
yields a PENDING output with workflow id "omex-verification-u2"; so does a
runs request. -/
theorem verify_endpoints_prompt_pending_witness :
    (verify_omex ⟨[], []⟩ demo_catalog [0, 1] "m.omex" "omex-verification-"
        [⟨"copasi", none⟩] default_compare_settings "0" "u2" "t" "c" "r2").1
      = Except.ok ⟨default_compare_settings, VerifyWorkflowStatus.PENDING,
          "t", "omex-verification-" ++ "u2", "r2"⟩
    ∧ (verify_runs "runs-verification-" ["67817a2e1f52f47f628af971"]
        default_compare_settings "u3" "t" "r3").1
      = Except.ok ⟨default_compare_settings, VerifyWorkflowStatus.PENDING,
          "t", "runs-verification-" ++ "u3", "r3"⟩ :=
  ⟨(verify_endpoints_prompt_pending.1 ⟨[], []⟩ demo_catalog [0, 1] "m.omex"
      "omex-verification-" [⟨"copasi", none⟩] default_compare_settings "0"
      "u2" "t" "c" "r2" [copasi_new] rfl).1,
   verify_endpoints_prompt_pending.2 "runs-verification-"
     ["67817a2e1f52f47f628af971"] default_compare_settings "u3" "t" "r3"⟩

/-! ## Theorems: C7 -/

/-- C7 counterexample: with a known-good catalog cached at time 0 and a
failing refresh at time 4000 — past the 3600-second TTL — the call
propagates the failure instead of falling back to the cached catalog. -/
theorem catalog_stale_fallback_counterexample :
    (get_simulation_versions_cached ⟨some ([copasi_new], 0)⟩ 4000
        (Except.error "refresh failed")).1 = Except.error "refresh failed"
    ∧ (get_simulation_versions_cached ⟨some ([copasi_new], 0)⟩ 4000
        (Except.error "refresh failed")).1 ≠ Except.ok [copasi_new] := by
  refine ⟨rfl, ?_⟩
  intro hcontra
  rw [show (get_simulation_versions_cached ⟨some ([copasi_new], 0)⟩ 4000
      (Except.error "refresh failed")).1 = Except.error "refresh failed"
      from rfl] at hcontra
  exact Except.noConfusion hcontra

/-- C7 amended: the simulator catalog is cached with a bounded TTL of 3600
seconds (one hour); while the TTL has not expired the cached catalog is
served without refreshing, but when a refresh fails after the TTL expires
the failure propagates as an error — there is no fallback to the last
known-good catalog. -/
theorem catalog_cache_ttl_behavior :
    catalog_ttl = 3600
    ∧ (∀ (cat : List BiosimulatorVersion) (t now : Nat)
          (remote : Except String (List BiosimulatorVersion)),
        now < t + catalog_ttl →
          (get_simulation_versions_cached ⟨some (cat, t)⟩ now remote).1
            = Except.ok cat)
    ∧ (∀ (cat : List BiosimulatorVersion) (t now : Nat) (e : String),
        ¬ now < t + catalog_ttl →
          (get_simulation_versions_cached ⟨some (cat, t)⟩ now
              (Except.error e)).1 = Except.error e) := by
  refine ⟨rfl, ?_, ?_⟩
  · intro cat t now remote h
    simp [get_simulation_versions_cached, h]
  · intro cat t now e h
    simp [get_simulation_versions_cached, h]

/-- C7 amended witness: at time 100 the cached catalog is served even
though the upstream is down; at time 5000 the refresh failure
propagates. -/
theorem catalog_cache_ttl_behavior_witness :
    (get_simulation_versions_cached ⟨some ([copasi_new], 0)⟩ 100
        (Except.error "down")).1 = Except.ok [copasi_new]
    ∧ (get_simulation_versions_cached ⟨some ([copasi_new], 0)⟩ 5000
        (Except.error "down")).1 = Except.error "down" :=
  ⟨catalog_cache_ttl_behavior.2.1 [copasi_new] 0 100 (Except.error "down")
      (by decide),
   catalog_cache_ttl_behavior.2.2 [copasi_new] 0 5000 "down" (by decide)⟩

end BiosimServer
